import Mathlib

/-!
# Verification of the HIVE streamlit surrogate-inference page

Shallow embedding of the inference logic of `src/navigation/infer_page.py`:
the `Reconstructor` class (XGBoost-predicted POD coefficients combined with a
linear PCA basis), the `generate_data` time-series loop, and
`get_parameters_from_config` config parsing.

Modelling conventions:
* Python floats are modelled as exact rationals `ℚ` (the claims are
  structural/linear-arithmetic, not about rounding).
* The loaded XGBoost booster is modelled as an opaque row-prediction function
  `List ℚ → List ℚ` (feature row to output row), matching the spec's
  "opaque fitted function f(features) -> vector".
* Fallible operations return `Except String _`; a Python exception is an
  `.error` carrying a message in the spirit of the Python one.
* `np.array(booster.predict(DMatrix [[...]])).squeeze()` is modelled by
  `squeeze1row`: the prediction for a one-row matrix has shape `(1, L)`
  (or `(1,)`); squeezing removes the size-1 axes, so the result is a
  one-dimensional array of length `L` when `L ≠ 1` and a zero-dimensional
  (scalar) array when `L = 1`.
-/

/-- A NumPy array value as it flows through this code: either a
zero-dimensional (scalar) array, or a one-dimensional vector. -/
inductive NpArray where
  | scalar (x : ℚ)
  | vector (xs : List ℚ)
  deriving Repr, DecidableEq

/-- `np.array(pred).squeeze()` for the prediction `pred` on a one-row
`DMatrix`: the `(1, L)` (resp. `(1,)`) prediction squeezes to a length-`L`
vector when `L ≠ 1`, and to a 0-d scalar when `L = 1`. -/
def squeeze1row : List ℚ → NpArray
  | [x] => NpArray.scalar x
  | xs => NpArray.vector xs

instance {ε α : Type} [DecidableEq ε] [DecidableEq α] :
    DecidableEq (Except ε α) := fun x y =>
  match x, y with
  | Except.error a, Except.error b =>
    if h : a = b then isTrue (by rw [h])
    else isFalse (fun hc => absurd (by injection hc) h)
  | Except.ok a, Except.ok b =>
    if h : a = b then isTrue (by rw [h])
    else isFalse (fun hc => absurd (by injection hc) h)
  | Except.error _, Except.ok _ => isFalse (fun hc => Except.noConfusion hc)
  | Except.ok _, Except.error _ => isFalse (fun hc => Except.noConfusion hc)

/-- Python `len` on a NumPy array: defined for one-dimensional arrays,
raises `TypeError` on a zero-dimensional array. -/
def npLen : NpArray → Except String ℕ
  | NpArray.scalar _ => Except.error "TypeError: len() of unsized object"
  | NpArray.vector xs => Except.ok xs.length

/-- The elements of a (possibly squeezed) array as a flat list;
slicing `a[:n]` acts on this list. -/
def npList : NpArray → List ℚ
  | NpArray.scalar x => [x]
  | NpArray.vector xs => xs

/-- `.max()` of a NumPy array: the greatest element; raises `ValueError`
on a zero-size array.  On a 0-d scalar it returns the scalar itself. -/
def npArrMax : NpArray → Except String ℚ
  | NpArray.scalar x => Except.ok x
  | NpArray.vector [] => Except.error "ValueError: zero-size array to reduction operation maximum"
  | NpArray.vector (x :: xs) => Except.ok (xs.foldl (fun a b => if a ≤ b then b else a) x)

/-- Elementwise addition of two one-dimensional arrays.  The call sites in
this development always add arrays of the basis-point dimension `P`; a
length mismatch is a NumPy shape error. -/
def vecAdd (v w : List ℚ) : Except String (List ℚ) :=
  if v.length = w.length then Except.ok (List.zipWith (fun a b => a + b) v w)
  else Except.error "ValueError: operands could not be broadcast together"

/-- Accumulation loop of `morph_model`: starting from `acc` (initially the
mean vector), add `coef_i * std_i * component_row_i` for the first
`num_modes` modes, reading row `i`, scale `i` and coefficient `i`; a missing
entry (fewer rows/scales/coefficients than modes) is an index error. -/
def morphGo : List ℚ → List (List ℚ) → List ℚ → List ℚ → ℕ → Except String (List ℚ)
  | acc, _, _, _, 0 => Except.ok acc
  | acc, row :: comps, s :: stds, c :: cs, Nat.succ k => do
      let acc' ← vecAdd acc (row.map (fun x => c * s * x))
      morphGo acc' comps stds cs k
  | _, _, _, _, Nat.succ _ => Except.error "IndexError: index out of bounds in morph_model"

/-- Modelled from the spec: `pyssam.SAM.morph_model` belongs to the external
`pyssam` package and its source is not part of this repository; the spec
(§4.1 step 4) gives its contract: reconstruct the field as
`mean_vector + Σ_{i=0}^{num_modes-1} coefficient[i] * scale[i] * component_row[i]`,
with component rows and scale values taken from the first `num_modes`
entries of the basis model in stored order.  `std` is the per-mode scale
vector `self.sam_obj.std`. -/
def morph_model (mean_dataset_columnvector : List ℚ)
    (pca_model_components : List (List ℚ)) (std : List ℚ)
    (model_parameters : List ℚ) (num_modes : ℕ) : Except String (List ℚ) :=
  morphGo mean_dataset_columnvector pca_model_components std model_parameters num_modes

/-- The state of a loaded `Reconstructor` (class at
`src/navigation/infer_page.py:57`): the loaded XGBoost booster (as its
prediction function on one feature row) and the three POD arrays loaded
from the `.npz` archive in `_load_pyssam` (lines 95-98): `mean`,
`pca_components`, and `pca_std` (stored into `self.sam_obj.std`). -/
structure Reconstructor where
  predict : List ℚ → List ℚ
  mean_dataset_columnvector : List ℚ
  pca_model_components : List (List ℚ)
  std : List ℚ

/-- `Reconstructor.reconstruct_with_xgboost` (lines 100-141):
build the feature row `[t, *param_list]`, predict and squeeze the POD
coefficients, clamp `num_modes` to `min(len(pod_coefs), num_modes)`
(line 130), reconstruct via `morph_model` with the first `num_modes`
coefficients, and finally apply the optional `reduction` to the
reconstructed field. -/
def Reconstructor.reconstruct_with_xgboost (self : Reconstructor) (t : ℚ)
    (param_list : List ℚ) (reduction : Option (List ℚ → ℚ))
    (num_modes : ℕ) : Except String NpArray := do
  let pod_coefs := squeeze1row (self.predict (t :: param_list))
  let len_pod_coefs ← npLen pod_coefs
  let num_modes := min len_pod_coefs num_modes
  let recon_field ← morph_model self.mean_dataset_columnvector
      self.pca_model_components self.std ((npList pod_coefs).take num_modes)
      num_modes
  match reduction with
  | some f => pure (NpArray.scalar (f recon_field))
  | none => pure (NpArray.vector recon_field)

/-- `np.arange(start, stop, step)` on integer arguments: the values
`start, start+step, ...` strictly below `stop`. -/
def np_arange (start stop step : ℕ) : List ℚ :=
  (List.range ((stop - start + step - 1) / step)).map
    (fun i => ((start + step * i : ℕ) : ℚ))

/-- The body of the `for t in time_list` loop of `generate_data`
(lines 148-155) together with the final value of the loop variable
`data_out`: at each time, reconstruct with `reduction=None`, append
`data_out.max()` paired with the time (as `np.c_[time_list, out_temp]`
does), and after the loop keep the last iteration's full `data_out`.
On an empty time list, `data_out` is an unbound local. -/
def gd_loop (recon_model : Reconstructor) (coeff_list : List ℚ)
    (num_modes : ℕ) : List ℚ → Except String (List (ℚ × ℚ) × NpArray)
  | [] => Except.error "UnboundLocalError: data_out referenced before assignment"
  | [t] =>
    match recon_model.reconstruct_with_xgboost t coeff_list none num_modes with
    | Except.error e => Except.error e
    | Except.ok data_out =>
      match npArrMax data_out with
      | Except.error e => Except.error e
      | Except.ok m => Except.ok ([(t, m)], data_out)
  | t :: t2 :: rest2 =>
    match recon_model.reconstruct_with_xgboost t coeff_list none num_modes with
    | Except.error e => Except.error e
    | Except.ok data_out =>
      match npArrMax data_out with
      | Except.error e => Except.error e
      | Except.ok m =>
        match gd_loop recon_model coeff_list num_modes (t2 :: rest2) with
        | Except.error e => Except.error e
        | Except.ok (tab, last) => Except.ok ((t, m) :: tab, last)

/-- `generate_data` (lines 144-155): reconstruct at every time in
`np.arange(5, 61, 5)` and return the (time, max value) table together with
the final time point's full field.  The Python function first constructs
the `Reconstructor` from the two artifact files; the embedding takes the
loaded `Reconstructor`, file I/O being outside the model. -/
def generate_data (recon_model : Reconstructor) (coeff_list : List ℚ)
    (num_modes : ℕ) : Except String (List (ℚ × ℚ) × NpArray) :=
  gd_loop recon_model coeff_list num_modes (np_arange 5 61 5)

/-- The `distribution` block of an uncertain parameter in the uq-toolkit
config file: a named prior with `loc` and `scale` values. -/
structure DistributionConfig where
  name : String
  loc : ℚ
  scale : ℚ
  deriving Repr, DecidableEq

/-- One uncertain-parameter entry: its `human-description` label and its
`distribution` block. -/
structure UncertainParamConfig where
  human_description : String
  distribution : DistributionConfig
  deriving Repr, DecidableEq

/-- One app block of the config: its `type` and its `uncertain-params`
mapping from keys to mappings from parameter names to entries (association
lists preserve the file's iteration order). -/
structure AppConfig where
  type : String
  uncertain_params : List (String × List (String × UncertainParamConfig))
  deriving Repr, DecidableEq

/-- The parsed hjson config: its `apps` mapping. -/
structure Config where
  apps : List (String × AppConfig)
  deriving Repr, DecidableEq

/-- Innermost loop of `get_parameters_from_config` (lines 223-243): over
the parameter entries of one key, raise `NotImplementedError` on any
non-uniform prior, otherwise append the label, `loc` (min) and
`loc + scale` (max) to the three accumulated lists. -/
def params_fold (acc : List String × List ℚ × List ℚ) :
    List (String × UncertainParamConfig) →
      Except String (List String × List ℚ × List ℚ)
  | [] => Except.ok acc
  | (_, uq_param_config) :: rest =>
    if uq_param_config.distribution.name ≠ "uniform" then
      Except.error "NotImplementedError: we only implemented uniform priors so far"
    else
      params_fold
        (acc.1 ++ [uq_param_config.human_description],
          acc.2.1 ++ [uq_param_config.distribution.loc],
          acc.2.2 ++ [uq_param_config.distribution.loc
            + uq_param_config.distribution.scale]) rest

/-- Middle loop (line 222): over the keys of `uncertain-params`. -/
def keys_fold (acc : List String × List ℚ × List ℚ) :
    List (String × List (String × UncertainParamConfig)) →
      Except String (List String × List ℚ × List ℚ)
  | [] => Except.ok acc
  | (_, params) :: rest =>
    match params_fold acc params with
    | Except.error e => Except.error e
    | Except.ok acc2 => keys_fold acc2 rest

/-- Outer loop (lines 215-231): over all apps; only apps whose `type` is
`"moose"` have their `uncertain-params` inspected. -/
def apps_fold (acc : List String × List ℚ × List ℚ) :
    List (String × AppConfig) →
      Except String (List String × List ℚ × List ℚ)
  | [] => Except.ok acc
  | (_, app) :: rest =>
    if app.type = "moose" then
      match keys_fold acc app.uncertain_params with
      | Except.error e => Except.error e
      | Except.ok acc2 => apps_fold acc2 rest
    else apps_fold acc rest

/-- `get_parameters_from_config` (lines 191-245) on the already-parsed
config (the hjson file read is I/O outside the model): collect slider
labels and min/max values for every uncertain parameter of every
`"moose"`-typed app, starting from three empty lists. -/
def get_parameters_from_config (config : Config) :
    Except String (List String × List ℚ × List ℚ) :=
  apps_fold ([], [], []) config.apps

/-- The basis and regressor of the spec's §8 concrete test case:
`mean=[0,0]`, `components=[[1,0],[0,1]]`, `scale=[1,1]`, and a regressor
that always predicts `[2,3]`. -/
def testReconstructor : Reconstructor where
  predict := fun _ => [2, 3]
  mean_dataset_columnvector := [0, 0]
  pca_model_components := [[1, 0], [0, 1]]
  std := [1, 1]

/-- A `Reconstructor` whose regressor emits exactly one coefficient: the
squeezed prediction is a zero-dimensional array. -/
def singleCoefReconstructor : Reconstructor where
  predict := fun _ => [7]
  mean_dataset_columnvector := [0]
  pca_model_components := [[1]]
  std := [1]

/-- Squeezing a one-row prediction whose length is not 1 yields the
one-dimensional array of its entries. -/
theorem squeeze1row_of_length_ne_one {row : List ℚ} (h : row.length ≠ 1) :
    squeeze1row row = NpArray.vector row := by
  match row with
  | [] => rfl
  | [x] => exact absurd rfl h
  | x :: y :: ys => rfl

/-- Whenever the squeezed prediction is a genuine vector (length ≠ 1),
`reconstruct_with_xgboost` with `reduction=None` is exactly `morph_model`
run at `min L num_modes` modes on the first `min L num_modes` predicted
coefficients. -/
theorem reconstruct_eq_morph_model (R : Reconstructor) (t : ℚ)
    (param_list : List ℚ) (num_modes L : ℕ)
    (hlen : (R.predict (t :: param_list)).length = L) (hL : L ≠ 1) :
    R.reconstruct_with_xgboost t param_list none num_modes =
      (morph_model R.mean_dataset_columnvector R.pca_model_components R.std
        ((R.predict (t :: param_list)).take (min L num_modes))
        (min L num_modes)).map NpArray.vector := by
  have hs : squeeze1row (R.predict (t :: param_list)) =
      NpArray.vector (R.predict (t :: param_list)) :=
    squeeze1row_of_length_ne_one (by rw [hlen]; exact hL)
  cases hmorph : morph_model R.mean_dataset_columnvector R.pca_model_components
      R.std ((R.predict (t :: param_list)).take (min L num_modes))
      (min L num_modes) with
  | error e =>
    simp [Reconstructor.reconstruct_with_xgboost, hs, npLen, npList, hlen,
      hmorph, Except.bind, bind, Except.map]
  | ok v =>
    simp [Reconstructor.reconstruct_with_xgboost, hs, npLen, npList, hlen,
      hmorph, Except.bind, bind, pure, Except.pure, Except.map]

/-- C6: For a basis with mean=[0,0], components=[[1,0],[0,1]], scale=[1,1],
and a regressor that always predicts the coefficient vector [2,3],
reconstruct called with num_modes=2 returns exactly [2,3] for any time and
parameter inputs. -/
theorem reconstruct_testcase_eq (t : ℚ) (param_list : List ℚ) :
    testReconstructor.reconstruct_with_xgboost t param_list none 2 =
      Except.ok (NpArray.vector [2, 3]) := by
  simp [Reconstructor.reconstruct_with_xgboost, testReconstructor, squeeze1row,
    npLen, npList, morph_model, morphGo, vecAdd, Except.bind, bind,
    pure, Except.pure]

/-- C5: For every time `t` and parameter vector `p`,
`reconstruct(t, p, num_modes=0)` returns exactly the basis mean vector,
for artifacts whose regressor does not emit exactly one coefficient
(in which case `len` of the squeezed prediction already fails, cf. C9). -/
theorem reconstruct_zero_modes_eq_mean (R : Reconstructor) (t : ℚ)
    (param_list : List ℚ)
    (h : (R.predict (t :: param_list)).length ≠ 1) :
    R.reconstruct_with_xgboost t param_list none 0 =
      Except.ok (NpArray.vector R.mean_dataset_columnvector) := by
  have hmorph := reconstruct_eq_morph_model R t param_list 0
    (R.predict (t :: param_list)).length rfl h
  simpa [morph_model, morphGo, Except.map] using hmorph

/-- Witness for C5 at the spec's concrete test artifacts. -/
theorem reconstruct_zero_modes_eq_mean_witness :
    (testReconstructor.predict ((0 : ℚ) :: [])).length ≠ 1 ∧
      testReconstructor.reconstruct_with_xgboost 0 [] none 0 =
        Except.ok (NpArray.vector testReconstructor.mean_dataset_columnvector) :=
  ⟨by decide, reconstruct_zero_modes_eq_mean testReconstructor 0 [] (by decide)⟩

/-- C9: If the regressor emits exactly one predicted coefficient, the
squeezed prediction is a zero-dimensional array, taking its `len` for the
clamp raises `TypeError`, and `reconstruct_with_xgboost` fails instead of
reconstructing with one mode. -/
theorem reconstruct_single_coef_is_error (R : Reconstructor) (t : ℚ)
    (param_list : List ℚ) (reduction : Option (List ℚ → ℚ)) (num_modes : ℕ)
    (c : ℚ) (h : R.predict (t :: param_list) = [c]) :
    R.reconstruct_with_xgboost t param_list reduction num_modes =
      Except.error "TypeError: len() of unsized object" := by
  simp [Reconstructor.reconstruct_with_xgboost, h, squeeze1row, npLen,
    Except.bind, bind]

/-- Witness for C9 on a concrete single-output regressor. -/
theorem reconstruct_single_coef_is_error_witness :
    singleCoefReconstructor.predict ((0 : ℚ) :: []) = [7] ∧
      singleCoefReconstructor.reconstruct_with_xgboost 0 [] none 2 =
        Except.error "TypeError: len() of unsized object" :=
  ⟨rfl, reconstruct_single_coef_is_error singleCoefReconstructor 0 [] none 2 7 rfl⟩

/-- Counterexample to C1 as stated: with a regressor that predicts a
coefficient vector of length `L = 1` and `num_modes = 2`, `reconstruct`
raises an error instead of silently using `min(2, 1) = 1` modes. -/
theorem reconstruct_clamp_counterexample :
    singleCoefReconstructor.reconstruct_with_xgboost 0 [] none 2 =
      Except.error "TypeError: len() of unsized object" := by
  simp [Reconstructor.reconstruct_with_xgboost, singleCoefReconstructor,
    squeeze1row, npLen, Except.bind, bind]

/-- C1 (amended): whenever the predicted coefficient vector has length
`L ≠ 1`, the number of modes actually used in the reconstruction equals
`min(num_modes, L)` — the clamp at line 130 governs what is sliced and
passed to `morph_model`, and the downgrade itself raises no error. -/
theorem reconstruct_uses_min_modes (R : Reconstructor) (t : ℚ)
    (param_list : List ℚ) (num_modes L : ℕ)
    (hlen : (R.predict (t :: param_list)).length = L) (hL : L ≠ 1) :
    R.reconstruct_with_xgboost t param_list none num_modes =
      (morph_model R.mean_dataset_columnvector R.pca_model_components R.std
        ((R.predict (t :: param_list)).take (min L num_modes))
        (min L num_modes)).map NpArray.vector :=
  reconstruct_eq_morph_model R t param_list num_modes L hlen hL

/-- Witness for C1 (amended) with `num_modes = 5 > L = 2`. -/
theorem reconstruct_uses_min_modes_witness :
    (testReconstructor.predict ((0 : ℚ) :: [])).length = 2 ∧ (2 : ℕ) ≠ 1 ∧
      testReconstructor.reconstruct_with_xgboost 0 [] none 5 =
        (morph_model testReconstructor.mean_dataset_columnvector
          testReconstructor.pca_model_components testReconstructor.std
          ((testReconstructor.predict ((0 : ℚ) :: [])).take (min 2 5))
          (min 2 5)).map NpArray.vector :=
  ⟨rfl, by decide, reconstruct_uses_min_modes testReconstructor 0 [] 5 2 rfl (by decide)⟩

/-- A `Reconstructor` whose regressor predicts more coefficients (2) than
the basis component matrix has rows (1). -/
def shortBasisReconstructor : Reconstructor where
  predict := fun _ => [2, 3]
  mean_dataset_columnvector := [0]
  pca_model_components := [[1]]
  std := [1, 1]

/-- `morphGo` succeeds (with a vector of the accumulator's length) whenever
the components, scales and coefficients all have at least `k` entries and
the first `k` component rows match the accumulator's dimension. -/
theorem morphGo_ok :
    ∀ (k : ℕ) (acc : List ℚ) (comps : List (List ℚ)) (stds cs : List ℚ),
      k ≤ comps.length → k ≤ stds.length → k ≤ cs.length →
      (∀ row ∈ comps.take k, row.length = acc.length) →
      ∃ v, morphGo acc comps stds cs k = Except.ok v ∧ v.length = acc.length
  | 0, acc, _, _, _, _, _, _, _ => ⟨acc, by simp [morphGo], rfl⟩
  | Nat.succ _, _, [], _, _, hc, _, _, _ => absurd hc (by simp)
  | Nat.succ _, _, _ :: _, [], _, _, hs, _, _ => absurd hs (by simp)
  | Nat.succ _, _, _ :: _, _ :: _, [], _, _, hcs, _ => absurd hcs (by simp)
  | Nat.succ k, acc, row :: comps, s :: stds, c :: cs, hc, hs, hcs, hrows => by
      have hrow : row.length = acc.length := by
        refine hrows row ?_
        rw [List.take_succ_cons]
        exact List.mem_cons_self row (comps.take k)
      have hadd : vecAdd acc (row.map fun x => c * s * x) =
          Except.ok (List.zipWith (fun a b => a + b) acc
            (row.map fun x => c * s * x)) := by
        simp [vecAdd, hrow]
      have hlen' : (List.zipWith (fun a b => a + b) acc
          (row.map fun x => c * s * x)).length = acc.length := by
        simp [hrow]
      obtain ⟨v, hv, hvl⟩ := morphGo_ok k
        (List.zipWith (fun a b => a + b) acc (row.map fun x => c * s * x))
        comps stds cs (by simpa using hc) (by simpa using hs)
        (by simpa using hcs)
        (fun r hr => by
          rw [hlen']
          refine hrows r ?_
          rw [List.take_succ_cons]
          exact List.mem_cons_of_mem row hr)
      exact ⟨v, by simp [morphGo, hadd, Except.bind, bind, hv],
        by rw [hvl, hlen']⟩

/-- Counterexample to C2 as stated: the code clamps only to the length of
the predicted coefficient vector, never to the number of component rows.
With 2 predicted coefficients but a 1-row component matrix, reconstruction
fails on an out-of-range mode index instead of being governed by
`min(rows, coefficients) = 1`. -/
theorem reconstruct_row_bound_counterexample :
    shortBasisReconstructor.reconstruct_with_xgboost 0 [] none 2 =
      Except.error "IndexError: index out of bounds in morph_model" := by
  simp [Reconstructor.reconstruct_with_xgboost, shortBasisReconstructor,
    squeeze1row, npLen, npList, morph_model, morphGo, vecAdd,
    Except.bind, bind]

/-- C2 (amended): the effective mode count is `min(num_modes, L)` where `L`
is the predicted-coefficient count; it is not further clamped by the
component row count.  Provided the basis satisfies the invariant of having
at least `min(num_modes, L)` component rows and scale entries, with each
used row of the mean's dimension, reconstruction succeeds without any
out-of-bounds access. -/
theorem reconstruct_no_oob (R : Reconstructor) (t : ℚ) (param_list : List ℚ)
    (num_modes L : ℕ)
    (hlen : (R.predict (t :: param_list)).length = L) (hL : L ≠ 1)
    (hc : min L num_modes ≤ R.pca_model_components.length)
    (hs : min L num_modes ≤ R.std.length)
    (hrows : ∀ row ∈ R.pca_model_components.take (min L num_modes),
      row.length = R.mean_dataset_columnvector.length) :
    ∃ v, R.reconstruct_with_xgboost t param_list none num_modes =
      Except.ok (NpArray.vector v) := by
  have heq := reconstruct_eq_morph_model R t param_list num_modes L hlen hL
  have hcs : min L num_modes ≤
      ((R.predict (t :: param_list)).take (min L num_modes)).length := by
    simp [List.length_take, hlen]
  obtain ⟨v, hv, _⟩ := morphGo_ok (min L num_modes)
    R.mean_dataset_columnvector R.pca_model_components R.std
    ((R.predict (t :: param_list)).take (min L num_modes)) hc hs hcs hrows
  exact ⟨v, by rw [heq]; simp [morph_model] at hv ⊢; simp [hv, Except.map]⟩

/-- Witness for C2 (amended) at the spec's test artifacts with
`num_modes = 5 > L = 2`. -/
theorem reconstruct_no_oob_witness :
    ((testReconstructor.predict ((0 : ℚ) :: [])).length = 2 ∧ (2 : ℕ) ≠ 1 ∧
      min 2 5 ≤ testReconstructor.pca_model_components.length ∧
      min 2 5 ≤ testReconstructor.std.length ∧
      ∀ row ∈ testReconstructor.pca_model_components.take (min 2 5),
        row.length = testReconstructor.mean_dataset_columnvector.length) ∧
    ∃ v, testReconstructor.reconstruct_with_xgboost 0 [] none 5 =
      Except.ok (NpArray.vector v) :=
  ⟨⟨rfl, by decide, by decide, by decide, by decide⟩,
    reconstruct_no_oob testReconstructor 0 [] 5 2 rfl (by decide) (by decide)
      (by decide) (by decide)⟩

/-- State-passing form of the method call: the body of
`reconstruct_with_xgboost` (lines 126-141) only reads `self` attributes and
binds local names — it assigns to no attribute of `self` — so the
post-state of a call is the receiver unchanged. -/
def Reconstructor.reconstruct_call (self : Reconstructor) (t : ℚ)
    (param_list : List ℚ) (reduction : Option (List ℚ → ℚ))
    (num_modes : ℕ) : Except String NpArray × Reconstructor :=
  (self.reconstruct_with_xgboost t param_list reduction num_modes, self)

/-- C8: Reconstruction is deterministic and mutates no shared state: a
second call with identical `(time, parameters, num_modes)` against the
state left by a first call returns the identical output, and the state
after a call equals the state before it. -/
theorem reconstruct_deterministic (R : Reconstructor) (t : ℚ)
    (param_list : List ℚ) (reduction : Option (List ℚ → ℚ)) (num_modes : ℕ) :
    ((R.reconstruct_call t param_list reduction num_modes).2.reconstruct_call
        t param_list reduction num_modes).1 =
      (R.reconstruct_call t param_list reduction num_modes).1 ∧
    (R.reconstruct_call t param_list reduction num_modes).2 = R :=
  ⟨rfl, rfl⟩

/-- When the time-series loop succeeds, the table pairs exactly the input
times (in order) with the max of the field reconstructed at that time, and
the returned snapshot is the full field of the last time point. -/
theorem gd_loop_spec (R : Reconstructor) (coeff_list : List ℚ)
    (num_modes : ℕ) :
    ∀ (ts : List ℚ) (tab : List (ℚ × ℚ)) (last : NpArray),
      gd_loop R coeff_list num_modes ts = Except.ok (tab, last) →
      tab.map Prod.fst = ts ∧
      (∀ p ∈ tab, ∃ f, R.reconstruct_with_xgboost p.1 coeff_list none
          num_modes = Except.ok f ∧ npArrMax f = Except.ok p.2) ∧
      ∃ tl, ts.getLast? = some tl ∧
        R.reconstruct_with_xgboost tl coeff_list none num_modes =
          Except.ok last := by
  intro ts
  induction ts with
  | nil => intro tab last h; simp [gd_loop] at h
  | cons t rest ih =>
    intro tab last h
    cases rest with
    | nil =>
      rw [gd_loop] at h
      split at h
      · exact absurd h (by simp)
      · rename_i data_out hr
        split at h
        · exact absurd h (by simp)
        · rename_i m hm
          simp only [Except.ok.injEq, Prod.mk.injEq] at h
          obtain ⟨htab, hlast⟩ := h
          subst htab
          subst hlast
          refine ⟨by simp, ?_, t, by simp, hr⟩
          intro p hp
          simp only [List.mem_singleton] at hp
          subst hp
          exact ⟨data_out, hr, hm⟩
    | cons t2 rest2 =>
      rw [gd_loop] at h
      split at h
      · exact absurd h (by simp)
      · rename_i data_out hr
        split at h
        · exact absurd h (by simp)
        · rename_i m hm
          split at h
          · exact absurd h (by simp)
          · rename_i tab2 last2 hg
            simp only [Except.ok.injEq, Prod.mk.injEq] at h
            obtain ⟨htab, hlast⟩ := h
            subst htab
            subst hlast
            obtain ⟨ih1, ih2, tl, ihl, ihr⟩ := ih tab2 last2 hg
            refine ⟨by simp [ih1], ?_, tl, ?_, ihr⟩
            · intro p hp
              rcases List.mem_cons.mp hp with hp1 | hp2
              · subst hp1; exact ⟨data_out, hr, hm⟩
              · exact ih2 p hp2
            · rw [List.getLast?_cons_cons]
              exact ihl

/-- C4: Time-series generation evaluates reconstruct at the fixed time
points 5, 10, ..., 60 and returns exactly 12 paired (time, value) entries,
where each entry's scalar value is the maximum of the full reconstructed
field at that time point. -/
theorem generate_data_timeseries (R : Reconstructor) (coeff_list : List ℚ)
    (num_modes : ℕ) (tab : List (ℚ × ℚ)) (field_vals : NpArray)
    (h : generate_data R coeff_list num_modes = Except.ok (tab, field_vals)) :
    tab.length = 12 ∧
    tab.map Prod.fst = [5, 10, 15, 20, 25, 30, 35, 40, 45, 50, 55, 60] ∧
    ∀ p ∈ tab, ∃ f, R.reconstruct_with_xgboost p.1 coeff_list none
        num_modes = Except.ok f ∧ npArrMax f = Except.ok p.2 := by
  rw [generate_data] at h
  obtain ⟨h1, h2, _⟩ := gd_loop_spec R coeff_list num_modes _ tab field_vals h
  have harange : np_arange 5 61 5 =
      [5, 10, 15, 20, 25, 30, 35, 40, 45, 50, 55, 60] := by decide
  rw [harange] at h1
  refine ⟨?_, h1, h2⟩
  have := congrArg List.length h1
  simpa using this

/-- Witness for C4 at the spec's concrete test artifacts: every time point
reconstructs to [2,3], whose maximum is 3. -/
theorem generate_data_timeseries_witness :
    (generate_data testReconstructor [] 2 = Except.ok
      ([(5, 3), (10, 3), (15, 3), (20, 3), (25, 3), (30, 3), (35, 3),
        (40, 3), (45, 3), (50, 3), (55, 3), (60, 3)], NpArray.vector [2, 3])) ∧
    ([((5 : ℚ), (3 : ℚ)), (10, 3), (15, 3), (20, 3), (25, 3), (30, 3), (35, 3),
        (40, 3), (45, 3), (50, 3), (55, 3), (60, 3)].length = 12 ∧
      [((5 : ℚ), (3 : ℚ)), (10, 3), (15, 3), (20, 3), (25, 3), (30, 3), (35, 3),
        (40, 3), (45, 3), (50, 3), (55, 3), (60, 3)].map Prod.fst =
        [5, 10, 15, 20, 25, 30, 35, 40, 45, 50, 55, 60] ∧
      ∀ p ∈ [((5 : ℚ), (3 : ℚ)), (10, 3), (15, 3), (20, 3), (25, 3), (30, 3), (35, 3),
        (40, 3), (45, 3), (50, 3), (55, 3), (60, 3)],
        ∃ f, testReconstructor.reconstruct_with_xgboost p.1 [] none 2 =
          Except.ok f ∧ npArrMax f = Except.ok p.2) :=
  ⟨by with_unfolding_all rfl,
    generate_data_timeseries testReconstructor [] 2
      [(5, 3), (10, 3), (15, 3), (20, 3), (25, 3), (30, 3), (35, 3),
        (40, 3), (45, 3), (50, 3), (55, 3), (60, 3)]
      (NpArray.vector [2, 3]) (by with_unfolding_all rfl)⟩

/-- C7: The second output of time-series generation is the full
(unreduced) reconstructed field of the final time point t = 60. -/
theorem generate_data_last_field (R : Reconstructor) (coeff_list : List ℚ)
    (num_modes : ℕ) (tab : List (ℚ × ℚ)) (field_vals : NpArray)
    (h : generate_data R coeff_list num_modes = Except.ok (tab, field_vals)) :
    R.reconstruct_with_xgboost 60 coeff_list none num_modes =
      Except.ok field_vals := by
  rw [generate_data] at h
  obtain ⟨_, _, tl, htl, hrec⟩ :=
    gd_loop_spec R coeff_list num_modes _ tab field_vals h
  have h60 : (np_arange 5 61 5).getLast? = some 60 := by decide
  rw [h60] at htl
  have h60tl : (60 : ℚ) = tl := by injection htl
  subst h60tl
  exact hrec

/-- Witness for C7 at the spec's concrete test artifacts. -/
theorem generate_data_last_field_witness :
    (generate_data testReconstructor [] 2 = Except.ok
      ([(5, 3), (10, 3), (15, 3), (20, 3), (25, 3), (30, 3), (35, 3),
        (40, 3), (45, 3), (50, 3), (55, 3), (60, 3)], NpArray.vector [2, 3])) ∧
    testReconstructor.reconstruct_with_xgboost 60 [] none 2 =
      Except.ok (NpArray.vector [2, 3]) :=
  ⟨by with_unfolding_all rfl,
    generate_data_last_field testReconstructor [] 2
      [(5, 3), (10, 3), (15, 3), (20, 3), (25, 3), (30, 3), (35, 3),
        (40, 3), (45, 3), (50, 3), (55, 3), (60, 3)]
      (NpArray.vector [2, 3]) (by with_unfolding_all rfl)⟩

/-- If any parameter entry in the list has a non-uniform distribution, the
innermost loop fails, whatever was accumulated before. -/
theorem params_fold_error_of_mem
    (l : List (String × UncertainParamConfig))
    (q : String × UncertainParamConfig) (hq : q ∈ l)
    (hname : q.2.distribution.name ≠ "uniform") :
    ∀ acc, ∃ e, params_fold acc l = Except.error e := by
  induction l with
  | nil => exact absurd hq (List.not_mem_nil q)
  | cons p rest ih =>
    intro acc
    obtain ⟨pname, pcfg⟩ := p
    by_cases hp : pcfg.distribution.name ≠ "uniform"
    · exact ⟨"NotImplementedError: we only implemented uniform priors so far",
        by simp [params_fold, hp]⟩
    · rcases List.mem_cons.mp hq with rfl | hmem
      · exact absurd hname hp
      · obtain ⟨e, he⟩ := ih hmem
          (acc.1 ++ [pcfg.human_description],
            acc.2.1 ++ [pcfg.distribution.loc],
            acc.2.2 ++ [pcfg.distribution.loc + pcfg.distribution.scale])
        exact ⟨e, by simp [params_fold, hp, he]⟩

/-- If any key's parameter list contains a non-uniform entry, the middle
loop fails, whatever was accumulated before. -/
theorem keys_fold_error_of_mem
    (l : List (String × List (String × UncertainParamConfig)))
    (k : String × List (String × UncertainParamConfig)) (hk : k ∈ l)
    (q : String × UncertainParamConfig) (hq : q ∈ k.2)
    (hname : q.2.distribution.name ≠ "uniform") :
    ∀ acc, ∃ e, keys_fold acc l = Except.error e := by
  induction l with
  | nil => exact absurd hk (List.not_mem_nil k)
  | cons k0 rest ih =>
    intro acc
    obtain ⟨k0name, k0params⟩ := k0
    cases hpf : params_fold acc k0params with
    | error e => exact ⟨e, by simp [keys_fold, hpf]⟩
    | ok acc2 =>
      rcases List.mem_cons.mp hk with rfl | hmem
      · obtain ⟨e, he⟩ := params_fold_error_of_mem k0params q hq hname acc
        rw [hpf] at he
        exact absurd he (by simp)
      · obtain ⟨e, he⟩ := ih hmem acc2
        exact ⟨e, by simp [keys_fold, hpf, he]⟩

/-- If any `"moose"`-typed app declares a non-uniform entry anywhere under
its `uncertain-params`, the outer loop fails, whatever was accumulated
before. -/
theorem apps_fold_error_of_mem
    (l : List (String × AppConfig)) (a : String × AppConfig) (ha : a ∈ l)
    (hty : a.2.type = "moose")
    (k : String × List (String × UncertainParamConfig))
    (hk : k ∈ a.2.uncertain_params)
    (q : String × UncertainParamConfig) (hq : q ∈ k.2)
    (hname : q.2.distribution.name ≠ "uniform") :
    ∀ acc, ∃ e, apps_fold acc l = Except.error e := by
  induction l with
  | nil => exact absurd ha (List.not_mem_nil a)
  | cons a0 rest ih =>
    intro acc
    obtain ⟨a0name, a0app⟩ := a0
    by_cases hm : a0app.type = "moose"
    · cases hkf : keys_fold acc a0app.uncertain_params with
      | error e => exact ⟨e, by simp [apps_fold, hm, hkf]⟩
      | ok acc2 =>
        rcases List.mem_cons.mp ha with rfl | hmem
        · obtain ⟨e, he⟩ :=
            keys_fold_error_of_mem a0app.uncertain_params k hk q hq hname acc
          rw [hkf] at he
          exact absurd he (by simp)
        · obtain ⟨e, he⟩ := ih hmem acc2
          exact ⟨e, by simp [apps_fold, hm, hkf, he]⟩
    · rcases List.mem_cons.mp ha with rfl | hmem
      · exact absurd hty hm
      · obtain ⟨e, he⟩ := ih hmem acc
        exact ⟨e, by simp [apps_fold, hm, he]⟩

/-- C3: If config parsing encounters any parameter entry (under a
`"moose"`-typed app) whose distribution name is not `"uniform"`, it fails
with an unsupported-distribution error and returns no parameter lists at
all: the `Except.error` result carries no partially built
name/min/max lists. -/
theorem config_nonuniform_is_error (config : Config)
    (a : String × AppConfig) (ha : a ∈ config.apps)
    (hty : a.2.type = "moose")
    (k : String × List (String × UncertainParamConfig))
    (hk : k ∈ a.2.uncertain_params)
    (q : String × UncertainParamConfig) (hq : q ∈ k.2)
    (hname : q.2.distribution.name ≠ "uniform") :
    ∃ e, get_parameters_from_config config = Except.error e :=
  apps_fold_error_of_mem config.apps a ha hty k hk q hq hname ([], [], [])

/-- A parameter entry declaring a normal (non-uniform) prior. -/
def normalParam : UncertainParamConfig where
  human_description := "thermal conductivity"
  distribution := { name := "normal", loc := 0, scale := 1 }

/-- A `"moose"`-typed app containing `normalParam`. -/
def normalMooseApp : AppConfig where
  type := "moose"
  uncertain_params := [("bcs", [("value", normalParam)])]

/-- A config whose single app is `normalMooseApp`. -/
def normalConfig : Config where
  apps := [("app0", normalMooseApp)]

/-- Witness for C3 on a concrete config with one normal-prior entry. -/
theorem config_nonuniform_is_error_witness :
    (("app0", normalMooseApp) ∈ normalConfig.apps ∧
      ("app0", normalMooseApp).2.type = "moose" ∧
      ("bcs", [("value", normalParam)]) ∈
        ("app0", normalMooseApp).2.uncertain_params ∧
      ("value", normalParam) ∈ ("bcs", [("value", normalParam)]).2 ∧
      ("value", normalParam).2.distribution.name ≠ "uniform") ∧
    ∃ e, get_parameters_from_config normalConfig = Except.error e :=
  ⟨⟨by decide, by decide, by decide, by decide, by decide⟩,
    config_nonuniform_is_error normalConfig ("app0", normalMooseApp)
      (by decide) (by decide) ("bcs", [("value", normalParam)]) (by decide)
      ("value", normalParam) (by decide) (by decide)⟩

/-- The outer loop ignores every non-`"moose"` app: it equals the loop run
on the `"moose"`-typed apps only. -/
theorem apps_fold_filter_moose (l : List (String × AppConfig)) :
    ∀ acc, apps_fold acc l =
      apps_fold acc (l.filter (fun a => a.2.type == "moose")) := by
  induction l with
  | nil => intro acc; rfl
  | cons a0 rest ih =>
    intro acc
    obtain ⟨a0name, a0app⟩ := a0
    by_cases hm : a0app.type = "moose"
    · cases hkf : keys_fold acc a0app.uncertain_params with
      | error e => simp [apps_fold, hm, hkf, List.filter, ih]
      | ok acc2 => simp [apps_fold, hm, hkf, List.filter, ih]
    · have hb : (a0app.type == "moose") = false := beq_eq_false_iff_ne.mpr hm
      simp [apps_fold, hm, List.filter, ih, hb]

/-- C10: Config parsing only inspects parameter entries under apps whose
type equals `"moose"`: parsing a config is the same as parsing the config
restricted to its `"moose"`-typed apps, so apps of any other type
contribute no parameters and raise no error even if they declare a
non-uniform distribution. -/
theorem config_skips_non_moose (config : Config) :
    get_parameters_from_config config =
      get_parameters_from_config
        ⟨config.apps.filter (fun a => a.2.type == "moose")⟩ :=
  apps_fold_filter_moose config.apps ([], [], [])
